import Mathlib

/-!
Shallow embedding of `src/main.rs` of `assoc_type_params`: a pluggable
command-execution harness.  Rust traits with `&mut self` methods are modelled
as records of state-passing functions (`σ → result × σ`); `Result<T, E>` is
modelled as `Except E T`.  Associated-type bundles (`TypeParamsT`,
`TypeParamsConstrained`) are modelled as records of types together with
capability records for each slot.
-/

/-- Model of `std::io::Error` (a platform failure).  It carries a message but
no information about which side (input or output) produced it. -/
structure IOErr where
  msg : String
deriving DecidableEq

/-- Model of `struct LogicError(String)` from the source. -/
structure LogicError where
  msg : String
deriving DecidableEq

/-- Model of `impl Display for LogicError`: delegates to the inner string. -/
def LogicError.display (e : LogicError) : String :=
  e.msg

/-- Model of `enum FrameworkError { Logic(LogicError), Input(std::io::Error),
Output(std::io::Error) }`. -/
inductive FrameworkError where
  | Logic : LogicError → FrameworkError
  | Input : IOErr → FrameworkError
  | Output : IOErr → FrameworkError
deriving DecidableEq

/-- Model of `impl From<LogicError> for FrameworkError`. -/
def FrameworkError.fromLogicError (error : LogicError) : FrameworkError :=
  FrameworkError.Logic error

/-- Model of `FrameworkError::source` from
`impl std::error::Error for FrameworkError`.  The `&dyn Error` result is
modelled as a sum of the two possible wrapped failure types. -/
def FrameworkError.source : FrameworkError → Option (Sum LogicError IOErr)
  | FrameworkError.Logic error => some (Sum.inl error)
  | FrameworkError.Input error => some (Sum.inr error)
  | FrameworkError.Output error => some (Sum.inr error)

/-- Model of `FrameworkError::cause`, which the source defines as
`self.source()`. -/
def FrameworkError.cause (e : FrameworkError) : Option (Sum LogicError IOErr) :=
  e.source

/-- Model of `impl Display for FrameworkError`: the category text of each
case. -/
def FrameworkError.display : FrameworkError → String
  | FrameworkError.Logic _ => "Logic error"
  | FrameworkError.Input _ => "Input error"
  | FrameworkError.Output _ => "Output error"

/-- Model of an implementation of `trait Input` for a type with state `ι`:
`fn read(&mut self) -> Result<String, FrameworkError>`. -/
structure InputImpl (ι : Type) where
  read : ι → Except FrameworkError String × ι

/-- Model of an implementation of `trait Output` for a type with state `ω`:
`fn write(&mut self, s: &str) -> Result<(), FrameworkError>`. -/
structure OutputImpl (ω : Type) where
  write : ω → String → Except FrameworkError Unit × ω

/-- Model of an implementation of `trait Logic` for a type with state `σ`,
with associated types `ReturnType` and `Error`:
`fn do_work(&mut self) -> Result<Self::ReturnType, Self::Error>`. -/
structure LogicImpl (σ ReturnType Error : Type) where
  do_work : σ → Except Error ReturnType × σ

/-- Model of an implementation of the standard error capability
(`std::error::Error`): its real obligation is the `Display` supertrait, since
`source` is defaulted.  Modelled as a display function. -/
structure ErrorImpl (ε : Type) where
  display : ε → String

/-- Model of `trait TypeParamsT`: an aggregate naming three types. -/
structure TypeParamsT where
  AppError : Type
  Input : Type
  Output : Type

/-- Model of an implementation of `trait TypeParamsConstrained`: it carries a
supertrait implementation of `TypeParamsT`, three associated types of its own,
proofs that the supertrait's associated types equal this trait's associated
types (the `TypeParamsT<AppError = Self::AppError, ...>` supertrait bound),
and capability implementations for each slot (the bounds
`AppError: std::error::Error`, `Input: Input`, `Output: Output`). -/
structure TypeParamsConstrained where
  toTypeParamsT : TypeParamsT
  AppError : Type
  Input : Type
  Output : Type
  superAppError : toTypeParamsT.AppError = AppError
  superInput : toTypeParamsT.Input = Input
  superOutput : toTypeParamsT.Output = Output
  appErrorBound : ErrorImpl AppError
  inputBound : InputImpl Input
  outputBound : OutputImpl Output

/-- Model of the blanket rule `impl<T> TypeParamsConstrained for T where
T: TypeParamsT, T::AppError: std::error::Error + 'static, T::Input: Input +
'static, T::Output: Output + 'static`, with each constrained associated type
defined to equal the unconstrained one. -/
def typeParamsConstrainedBlanket (T : TypeParamsT)
    (he : ErrorImpl T.AppError) (hi : InputImpl T.Input)
    (ho : OutputImpl T.Output) : TypeParamsConstrained :=
  { toTypeParamsT := T
    AppError := T.AppError
    Input := T.Input
    Output := T.Output
    superAppError := rfl
    superInput := rfl
    superOutput := rfl
    appErrorBound := he
    inputBound := hi
    outputBound := ho }

/-- Model of `struct CmdCtx<Types: TypeParamsT>`: one input instance and one
output instance of the bundle's slots. -/
structure CmdCtx (Types : TypeParamsT) where
  input : Types.Input
  output : Types.Output

/-- Interaction events: one per trait-method invocation that `run` performs on
its collaborators, recorded in invocation order so that call-order and
short-circuit properties can be stated. -/
inductive Event where
  | write : String → Event
  | read : Event
  | doWork : Event
deriving DecidableEq

/-- Result of one `run` call: the returned `Result`, the final states of the
input, output and logic collaborators, and the ordered list of collaborator
invocations that occurred. -/
structure RunOutcome (ι ω σ α R : Type) where
  result : Except α R
  input : ι
  output : ω
  logic : σ
  events : List Event

/-- Model of `fn run<Types, L>(cmd_ctx: &mut CmdCtx<Types>, logic: &mut L) ->
Result<L::ReturnType, Types::AppError>`.  The trait dictionaries that Rust
resolves from `Types: TypeParamsConstrained` and `L: Logic` are passed
explicitly (`inputImpl`, `outputImpl`, `logicImpl`), and the bounds
`Types::AppError: From<L::Error> + From<FrameworkError>` are the conversion
functions `fromE` and `fromFw`.  Each `?` short-circuit in the source is a
`match` on the collaborator's result; `events` records the invocations. -/
def run (Types : TypeParamsT)
    (inputImpl : InputImpl Types.Input)
    (outputImpl : OutputImpl Types.Output)
    (logicImpl : LogicImpl σ R E)
    (fromE : E → Types.AppError)
    (fromFw : FrameworkError → Types.AppError)
    (cmdCtx : CmdCtx Types) (logic : σ) :
    RunOutcome Types.Input Types.Output σ Types.AppError R :=
  let input := cmdCtx.input
  let output := cmdCtx.output
  match outputImpl.write output "Enter some input:\n" with
  | (Except.error e, output) =>
      ⟨Except.error (fromFw e), input, output, logic,
        [Event.write "Enter some input:\n"]⟩
  | (Except.ok _, output) =>
    match inputImpl.read input with
    | (Except.error e, input) =>
        ⟨Except.error (fromFw e), input, output, logic,
          [Event.write "Enter some input:\n", Event.read]⟩
    | (Except.ok line, input) =>
      match logicImpl.do_work logic with
      | (Except.error e, logic) =>
          ⟨Except.error (fromE e), input, output, logic,
            [Event.write "Enter some input:\n", Event.read, Event.doWork]⟩
      | (Except.ok t, logic) =>
        match outputImpl.write output "You entered: " with
        | (Except.error e, output) =>
            ⟨Except.error (fromFw e), input, output, logic,
              [Event.write "Enter some input:\n", Event.read, Event.doWork,
                Event.write "You entered: "]⟩
        | (Except.ok _, output) =>
          match outputImpl.write output line with
          | (Except.error e, output) =>
              ⟨Except.error (fromFw e), input, output, logic,
                [Event.write "Enter some input:\n", Event.read, Event.doWork,
                  Event.write "You entered: ", Event.write line]⟩
          | (Except.ok _, output) =>
              ⟨Except.ok t, input, output, logic,
                [Event.write "Enter some input:\n", Event.read, Event.doWork,
                  Event.write "You entered: ", Event.write line]⟩

/-- Model of the state of `std::io::Stdin` for the purposes of `read_line`: a
script of pending outcomes, each either a text chunk that `read_line` appends
to the buffer (with its trailing newline intact), or a platform failure.  An
exhausted script is end-of-input, where `read_line` appends nothing and
returns `Ok(0)`. -/
def StdinState : Type :=
  List (Except IOErr String)

/-- Model of `Stdin::read_line(&mut self, buffer)`: appends the next chunk to
`buffer` and returns the number of bytes read, or fails with the scripted
platform failure; at end-of-input it returns `Ok(0)` leaving `buffer`
unchanged. -/
def stdinReadLine (self : StdinState) (buffer : String) :
    Except IOErr (Nat × String) × StdinState :=
  match self with
  | [] => (Except.ok (0, buffer), [])
  | Except.ok chunk :: rest => (Except.ok (chunk.length, buffer ++ chunk), rest)
  | Except.error e :: rest => (Except.error e, rest)

/-- Model of `impl Input for Stdin`: starts from an empty buffer, calls
`read_line`, maps a platform failure through `FrameworkError::Input`, and on
success returns the buffer. -/
def stdinInputImpl : InputImpl StdinState :=
  ⟨fun self =>
    let buffer := ""
    match stdinReadLine self buffer with
    | (Except.error e, self) => (Except.error (FrameworkError.Input e), self)
    | (Except.ok (_n, buffer), self) => (Except.ok buffer, self)⟩

/-- Model of the state of `std::io::Stdout`: a script of pending `write_all`
outcomes (an exhausted script means every further write succeeds) together
with the log of strings passed to `write_all`, in order. -/
structure StdoutState where
  script : List (Except IOErr Unit)
  written : List String

/-- Model of `Stdout::lock().write_all(s.as_bytes())`: records the attempted
write and produces the next scripted outcome. -/
def stdoutWriteAll (self : StdoutState) (s : String) :
    Except IOErr Unit × StdoutState :=
  match self.script with
  | [] => (Except.ok (), { self with written := self.written ++ [s] })
  | r :: rest => (r, { script := rest, written := self.written ++ [s] })

/-- Model of `impl Output for Stdout`: calls `write_all` and maps a platform
failure through `FrameworkError::Output`. -/
def stdoutOutputImpl : OutputImpl StdoutState :=
  ⟨fun self s =>
    match stdoutWriteAll self s with
    | (Except.error e, self) => (Except.error (FrameworkError.Output e), self)
    | (Except.ok u, self) => (Except.ok u, self)⟩

/-- Model of `impl TypeParamsT for StdioEndpoint`. -/
@[reducible] def StdioEndpoint : TypeParamsT :=
  { AppError := FrameworkError
    Input := StdinState
    Output := StdoutState }

/-- Model of `impl std::error::Error for FrameworkError` as a capability
record (its `Display` obligation). -/
def frameworkErrorImpl : ErrorImpl FrameworkError :=
  ⟨FrameworkError.display⟩

/-- Model of `impl Logic for WorkLogic`: `do_work` always returns `Ok(123)`
(`ReturnType = u8` is modelled as `Nat`; the only value produced is `123`). -/
def workLogicImpl : LogicImpl Unit Nat LogicError :=
  ⟨fun self => (Except.ok 123, self)⟩

/-- Test machine: an input collaborator that always succeeds with a fixed
line and has no state. -/
def constInput (line : String) : InputImpl Unit :=
  ⟨fun self => (Except.ok line, self)⟩

/-- Test machine: a unit-of-work that always succeeds with a fixed value. -/
def constLogic (v : Nat) : LogicImpl Unit Nat LogicError :=
  ⟨fun self => (Except.ok v, self)⟩

/-- Test machine: a unit-of-work that always fails with a fixed domain
failure. -/
def failLogic (m : String) : LogicImpl Unit Nat LogicError :=
  ⟨fun self => (Except.error ⟨m⟩, self)⟩

/-- Test machine: an output collaborator that always succeeds and logs every
string it receives, in order. -/
def logOutput : OutputImpl (List String) :=
  ⟨fun self s => (Except.ok (), self ++ [s])⟩

/-- Test machine: an output collaborator that succeeds on its first write and
fails on every later write; its state counts the writes received. -/
def flakyOutput : OutputImpl Nat :=
  ⟨fun count _ =>
    (if count = 0 then Except.ok ()
      else Except.error (FrameworkError.Output ⟨"boom"⟩), count + 1)⟩

/-- Bundle instantiation used by the logging test machines. -/
@[reducible] def logTypes : TypeParamsT :=
  { AppError := FrameworkError, Input := Unit, Output := List String }

/-- Bundle instantiation used by the flaky test machines. -/
@[reducible] def flakyTypes : TypeParamsT :=
  { AppError := FrameworkError, Input := Unit, Output := Nat }

/-- C2: any bundle implementing the unconstrained contract `TypeParamsT`
whose error slot satisfies the standard error capability, whose input slot
implements `Input` and whose output slot implements `Output` qualifies, via
the blanket rule, as a constrained bundle (`TypeParamsConstrained`), and the
constrained bundle's three associated types are identical to the
unconstrained bundle's three associated types. -/
theorem typeParamsConstrained_blanket_identity (T : TypeParamsT)
    (he : ErrorImpl T.AppError) (hi : InputImpl T.Input)
    (ho : OutputImpl T.Output) :
    (typeParamsConstrainedBlanket T he hi ho).toTypeParamsT = T ∧
    (typeParamsConstrainedBlanket T he hi ho).AppError = T.AppError ∧
    (typeParamsConstrainedBlanket T he hi ho).Input = T.Input ∧
    (typeParamsConstrainedBlanket T he hi ho).Output = T.Output :=
  ⟨rfl, rfl, rfl, rfl⟩

/-- C3: converting a domain failure into the unified failure wraps it as the
`Logic` case, whose category text is "Logic error" and whose cause is the
domain failure itself; a platform failure wrapped input-side has category
text "Input error", wrapped output-side "Output error", and in all three
cases the wrapped failure is the unified failure's cause. -/
theorem frameworkError_category_and_cause (d : LogicError) (e : IOErr) :
    FrameworkError.fromLogicError d = FrameworkError.Logic d ∧
    (FrameworkError.fromLogicError d).display = "Logic error" ∧
    (FrameworkError.fromLogicError d).cause = some (Sum.inl d) ∧
    (FrameworkError.Input e).display = "Input error" ∧
    (FrameworkError.Input e).cause = some (Sum.inr e) ∧
    (FrameworkError.Output e).display = "Output error" ∧
    (FrameworkError.Output e).cause = some (Sum.inr e) :=
  ⟨rfl, rfl, rfl, rfl, rfl, rfl, rfl⟩

/-- C9: `cause` returns exactly what `source` returns for every unified
failure, and both always return `some` of the wrapped failure, in every case
of the union. -/
theorem frameworkError_cause_eq_source (e : FrameworkError) :
    e.cause = e.source ∧
    (match e with
      | FrameworkError.Logic d => e.source = some (Sum.inl d)
      | FrameworkError.Input x => e.source = some (Sum.inr x)
      | FrameworkError.Output x => e.source = some (Sum.inr x)) :=
  ⟨rfl, by cases e <;> rfl⟩

/-- Appending a string to the empty string yields that string. -/
theorem string_empty_append (l : String) : "" ++ l = l := by
  cases l
  rfl

/-- C10: the Stdin adapter's `read` fails exactly when the underlying
`read_line` fails (wrapping the platform failure input-side); on success it
returns exactly the text `read_line` produced, untrimmed; and at end-of-input
it succeeds with the empty string rather than an error. -/
theorem stdin_read_mirrors_read_line (e : IOErr) (chunk : String)
    (rest : StdinState) :
    stdinInputImpl.read (Except.error e :: rest) =
      (Except.error (FrameworkError.Input e), rest) ∧
    stdinInputImpl.read (Except.ok chunk :: rest) = (Except.ok chunk, rest) ∧
    stdinInputImpl.read [] = (Except.ok "", []) :=
  ⟨rfl, by simp [stdinInputImpl, stdinReadLine, string_empty_append], rfl⟩

/-- C1 (counterexample): with an input yielding "hello\n", a computation
yielding 7, and an output collaborator that succeeds on its first write but
fails on its second, the first write, the read and the computation all
succeed, yet `run` does not return 7 — it returns the second write's failure,
and the output collaborator receives only two writes, not three. -/
theorem run_success_needs_later_writes_cex :
    (flakyOutput.write 0 "Enter some input:\n").1 = Except.ok () ∧
    (constInput "hello\n").read () = (Except.ok "hello\n", ()) ∧
    (constLogic 7).do_work () = (Except.ok 7, ()) ∧
    (run flakyTypes (constInput "hello\n") flakyOutput (constLogic 7)
        FrameworkError.fromLogicError id ⟨(), 0⟩ ()).result =
      Except.error (FrameworkError.Output ⟨"boom"⟩) ∧
    (run flakyTypes (constInput "hello\n") flakyOutput (constLogic 7)
        FrameworkError.fromLogicError id ⟨(), 0⟩ ()).result ≠ Except.ok 7 ∧
    (run flakyTypes (constInput "hello\n") flakyOutput (constLogic 7)
        FrameworkError.fromLogicError id ⟨(), 0⟩ ()).events =
      [Event.write "Enter some input:\n", Event.read, Event.doWork,
        Event.write "You entered: "] :=
  ⟨rfl, rfl, rfl, rfl, fun h => Except.noConfusion h, rfl⟩

/-- C1 (amended): for every context and unit-of-work, if every output write,
the input read and the computation succeed — the read returning line `L` and
the computation returning `v` — then `run` returns `v`, and the output
collaborator receives exactly three writes, in order: the prompt, then
"You entered: ", then `L`, with no other writes or reads. -/
theorem run_success_trace (Types : TypeParamsT)
    (inputImpl : InputImpl Types.Input) (outputImpl : OutputImpl Types.Output)
    (logicImpl : LogicImpl σ R E) (fromE : E → Types.AppError)
    (fromFw : FrameworkError → Types.AppError)
    (cmdCtx : CmdCtx Types) (logic : σ)
    (L : String) (v : R) (i1 : Types.Input) (o1 o2 o3 : Types.Output) (l1 : σ)
    (h1 : outputImpl.write cmdCtx.output "Enter some input:\n" =
      (Except.ok (), o1))
    (h2 : inputImpl.read cmdCtx.input = (Except.ok L, i1))
    (h3 : logicImpl.do_work logic = (Except.ok v, l1))
    (h4 : outputImpl.write o1 "You entered: " = (Except.ok (), o2))
    (h5 : outputImpl.write o2 L = (Except.ok (), o3)) :
    run Types inputImpl outputImpl logicImpl fromE fromFw cmdCtx logic =
      ⟨Except.ok v, i1, o3, l1,
        [Event.write "Enter some input:\n", Event.read, Event.doWork,
          Event.write "You entered: ", Event.write L]⟩ := by
  simp [run, h1, h2, h3, h4, h5]

/-- C1 (witness): the amended success-path theorem applied to concrete
logging collaborators. -/
theorem run_success_trace_witness :
    run logTypes (constInput "hi\n") logOutput (constLogic 5)
        FrameworkError.fromLogicError id ⟨(), []⟩ () =
      ⟨Except.ok 5, (), ["Enter some input:\n", "You entered: ", "hi\n"], (),
        [Event.write "Enter some input:\n", Event.read, Event.doWork,
          Event.write "You entered: ", Event.write "hi\n"]⟩ :=
  run_success_trace logTypes (constInput "hi\n") logOutput (constLogic 5)
    FrameworkError.fromLogicError id ⟨(), []⟩ () "hi\n" 5 ()
    ["Enter some input:\n"] ["Enter some input:\n", "You entered: "]
    ["Enter some input:\n", "You entered: ", "hi\n"] () rfl rfl rfl rfl rfl

/-- C4: for every context and unit-of-work, if the output collaborator fails
on the very first write (the prompt) with the output-side wrapping of a
platform failure, `run` returns immediately with that wrapped failure
(converted through the bundle's error conversion), the category text of the
wrapped failure is "Output error", and neither the input collaborator's read
nor the computation is ever invoked (the event trace holds only the one
attempted write). -/
theorem run_first_write_failure_short_circuits (Types : TypeParamsT)
    (inputImpl : InputImpl Types.Input) (outputImpl : OutputImpl Types.Output)
    (logicImpl : LogicImpl σ R E) (fromE : E → Types.AppError)
    (fromFw : FrameworkError → Types.AppError)
    (cmdCtx : CmdCtx Types) (logic : σ) (e : IOErr) (o1 : Types.Output)
    (h1 : outputImpl.write cmdCtx.output "Enter some input:\n" =
      (Except.error (FrameworkError.Output e), o1)) :
    run Types inputImpl outputImpl logicImpl fromE fromFw cmdCtx logic =
      ⟨Except.error (fromFw (FrameworkError.Output e)), cmdCtx.input, o1,
        logic, [Event.write "Enter some input:\n"]⟩ ∧
    (FrameworkError.Output e).display = "Output error" :=
  ⟨by simp [run, h1], rfl⟩

/-- C4 (witness): the short-circuit theorem applied to the stdio adapters
with a scripted first-write failure. -/
theorem run_first_write_failure_short_circuits_witness :
    run StdioEndpoint stdinInputImpl stdoutOutputImpl workLogicImpl
        FrameworkError.fromLogicError id
        ⟨[], ⟨[Except.error ⟨"full"⟩], []⟩⟩ () =
      ⟨Except.error (id (FrameworkError.Output ⟨"full"⟩)), [],
        ⟨[], ["Enter some input:\n"]⟩, (),
        [Event.write "Enter some input:\n"]⟩ ∧
    (FrameworkError.Output ⟨"full"⟩).display = "Output error" :=
  run_first_write_failure_short_circuits StdioEndpoint stdinInputImpl
    stdoutOutputImpl workLogicImpl FrameworkError.fromLogicError id
    ⟨[], ⟨[Except.error ⟨"full"⟩], []⟩⟩ () ⟨"full"⟩
    ⟨[], ["Enter some input:\n"]⟩ rfl

/-- C5: for every context and unit-of-work, if the input collaborator's read
fails with the input-side wrapping of a platform failure, `run` returns
immediately with that wrapped failure (converted through the bundle's error
conversion) and the unit-of-work's computation is never invoked (the event
trace holds only the prompt write and the read). -/
theorem run_read_failure_skips_work (Types : TypeParamsT)
    (inputImpl : InputImpl Types.Input) (outputImpl : OutputImpl Types.Output)
    (logicImpl : LogicImpl σ R E) (fromE : E → Types.AppError)
    (fromFw : FrameworkError → Types.AppError)
    (cmdCtx : CmdCtx Types) (logic : σ) (e : IOErr)
    (o1 : Types.Output) (i1 : Types.Input)
    (h1 : outputImpl.write cmdCtx.output "Enter some input:\n" =
      (Except.ok (), o1))
    (h2 : inputImpl.read cmdCtx.input =
      (Except.error (FrameworkError.Input e), i1)) :
    run Types inputImpl outputImpl logicImpl fromE fromFw cmdCtx logic =
      ⟨Except.error (fromFw (FrameworkError.Input e)), i1, o1, logic,
        [Event.write "Enter some input:\n", Event.read]⟩ ∧
    (FrameworkError.Input e).display = "Input error" :=
  ⟨by simp [run, h1, h2], rfl⟩

/-- C5 (witness): the read-failure theorem applied to the stdio adapters with
a scripted read failure. -/
theorem run_read_failure_skips_work_witness :
    run StdioEndpoint stdinInputImpl stdoutOutputImpl workLogicImpl
        FrameworkError.fromLogicError id
        ⟨[Except.error ⟨"pipe"⟩], ⟨[], []⟩⟩ () =
      ⟨Except.error (id (FrameworkError.Input ⟨"pipe"⟩)), [],
        ⟨[], ["Enter some input:\n"]⟩, (),
        [Event.write "Enter some input:\n", Event.read]⟩ ∧
    (FrameworkError.Input ⟨"pipe"⟩).display = "Input error" :=
  run_read_failure_skips_work StdioEndpoint stdinInputImpl stdoutOutputImpl
    workLogicImpl FrameworkError.fromLogicError id
    ⟨[Except.error ⟨"pipe"⟩], ⟨[], []⟩⟩ () ⟨"pipe"⟩
    ⟨[], ["Enter some input:\n"]⟩ [] rfl rfl

/-- C6: for every context and unit-of-work, if the computation fails with
domain failure `d`, `run` returns immediately with `d` converted into the
bundle's unified failure, and no further output writes occur after the
failure point: the event trace shows the output collaborator received exactly
one write, the prompt. -/
theorem run_logic_failure_no_more_writes (Types : TypeParamsT)
    (inputImpl : InputImpl Types.Input) (outputImpl : OutputImpl Types.Output)
    (logicImpl : LogicImpl σ R E) (fromE : E → Types.AppError)
    (fromFw : FrameworkError → Types.AppError)
    (cmdCtx : CmdCtx Types) (logic : σ) (L : String) (d : E)
    (o1 : Types.Output) (i1 : Types.Input) (l1 : σ)
    (h1 : outputImpl.write cmdCtx.output "Enter some input:\n" =
      (Except.ok (), o1))
    (h2 : inputImpl.read cmdCtx.input = (Except.ok L, i1))
    (h3 : logicImpl.do_work logic = (Except.error d, l1)) :
    run Types inputImpl outputImpl logicImpl fromE fromFw cmdCtx logic =
      ⟨Except.error (fromE d), i1, o1, l1,
        [Event.write "Enter some input:\n", Event.read, Event.doWork]⟩ :=
  by simp [run, h1, h2, h3]

/-- C6 (witness): the logic-failure theorem applied to the stdio adapters and
an always-failing unit-of-work. -/
theorem run_logic_failure_no_more_writes_witness :
    run StdioEndpoint stdinInputImpl stdoutOutputImpl (failLogic "bad")
        FrameworkError.fromLogicError id
        ⟨[Except.ok "x\n"], ⟨[], []⟩⟩ () =
      ⟨Except.error (FrameworkError.fromLogicError ⟨"bad"⟩), [],
        ⟨[], ["Enter some input:\n"]⟩, (),
        [Event.write "Enter some input:\n", Event.read, Event.doWork]⟩ :=
  run_logic_failure_no_more_writes StdioEndpoint stdinInputImpl
    stdoutOutputImpl (failLogic "bad") FrameworkError.fromLogicError id
    ⟨[Except.ok "x\n"], ⟨[], []⟩⟩ () "x\n" ⟨"bad"⟩
    ⟨[], ["Enter some input:\n"]⟩ [] () rfl (by simp [stdinInputImpl,
      stdinReadLine, string_empty_append]) rfl

/-- C7 (counterexample): the failure value returned by the input collaborator
already carries side information of its own: the Stdin adapter returns the
input-side wrapping of the platform failure, whose category text is already
"Input error" and which differs from the output-side wrapping of the same
platform failure; the orchestration routine then returns that very value
unchanged, performing no tagging of its own. -/
theorem side_tagging_not_in_run_cex :
    stdinInputImpl.read [Except.error ⟨"disk"⟩] =
      (Except.error (FrameworkError.Input ⟨"disk"⟩), []) ∧
    (FrameworkError.Input ⟨"disk"⟩).display = "Input error" ∧
    FrameworkError.Input ⟨"disk"⟩ ≠ FrameworkError.Output ⟨"disk"⟩ ∧
    (run StdioEndpoint stdinInputImpl stdoutOutputImpl workLogicImpl
        FrameworkError.fromLogicError id
        ⟨[Except.error ⟨"disk"⟩], ⟨[], []⟩⟩ ()).result =
      Except.error (FrameworkError.Input ⟨"disk"⟩) :=
  ⟨rfl, rfl, by decide, rfl⟩

/-- C7 (amended): the side tag is attached by the concrete I/O adapters, not
by the orchestration routine: the Stdin adapter wraps the raw platform
failure (which carries no side information) input-side at its point of
conversion, the Stdout adapter wraps it output-side at its point of
conversion, and the orchestration routine receives the already-tagged
unified failure from the collaborator and propagates it unchanged. -/
theorem adapters_tag_side_run_propagates (e : IOErr) (rest : StdinState)
    (script : List (Except IOErr Unit)) (w : List String) (s : String) :
    stdinInputImpl.read (Except.error e :: rest) =
      (Except.error (FrameworkError.Input e), rest) ∧
    stdoutOutputImpl.write ⟨Except.error e :: script, w⟩ s =
      (Except.error (FrameworkError.Output e), ⟨script, w ++ [s]⟩) ∧
    run StdioEndpoint stdinInputImpl stdoutOutputImpl workLogicImpl
        FrameworkError.fromLogicError id
        ⟨Except.error e :: rest, ⟨[], w⟩⟩ () =
      ⟨Except.error (FrameworkError.Input e), rest,
        ⟨[], w ++ ["Enter some input:\n"]⟩, (),
        [Event.write "Enter some input:\n", Event.read]⟩ :=
  ⟨rfl, rfl, rfl⟩

/-- C8: the sample unit-of-work's `do_work` always succeeds returning 123,
and for an input collaborator yielding the line "hello\n" the orchestration
routine produces the output sequence "Enter some input:\n", "You entered: ",
"hello\n" and returns the value 123. -/
theorem workLogic_scenario_hello :
    (∀ s : Unit, workLogicImpl.do_work s = (Except.ok 123, s)) ∧
    run logTypes (constInput "hello\n") logOutput workLogicImpl
        FrameworkError.fromLogicError id ⟨(), []⟩ () =
      ⟨Except.ok 123, (),
        ["Enter some input:\n", "You entered: ", "hello\n"], (),
        [Event.write "Enter some input:\n", Event.read, Event.doWork,
          Event.write "You entered: ", Event.write "hello\n"]⟩ :=
  ⟨fun _ => rfl, rfl⟩
